import Mathlib

/-!
Verification of the ICRA backend (retrieval-augmented generation pipeline).

Shallow embedding of `knowledge_base.py` and `rag_pipeline.py`:
pure functions become Lean functions; the persistent ChromaDB store becomes
explicit state passing; fallible code returns `Except`.  External
collaborators (the vector index and the hosted generation service) are
modelled at their interface boundary: the index query is a stable
nearest-k search over a distance oracle, and a generation call is a tagged
outcome (text, or one of the classified failures, or an unclassified
exception).
-/

/-! ## String helpers -/

/-- Python `str.join`: join a list of strings with a separator.
An empty list yields the empty string. -/
def joinWith (sep : String) : List String → String
  | [] => ""
  | [x] => x
  | x :: y :: rest => x ++ sep ++ joinWith sep (y :: rest)

/-- Python `s.replace("_", " ")` for a one-character pattern: map the
underscore character to a space. -/
def replaceUnderscores (s : String) : String :=
  String.mk (s.data.map (fun c => if c = '_' then ' ' else c))

/-- One step of Python `str.title`: the boolean records whether the previous
character was alphabetic. The first letter of each alphabetic run is
uppercased and the rest lowercased. -/
def pyTitleAux : Bool → List Char → List Char
  | _, [] => []
  | prevAlpha, c :: cs =>
    if c.isAlpha then
      (if prevAlpha then c.toLower else c.toUpper) :: pyTitleAux true cs
    else
      c :: pyTitleAux false cs

/-- Python `str.title` (ASCII semantics). -/
def pyTitle (s : String) : String :=
  String.mk (pyTitleAux false s.data)

/-- Left-pad the decimal rendering of `n` with zeros to four digits. -/
def padZeros4 (n : Nat) : String :=
  let s := toString n
  String.mk (List.replicate (4 - s.length) '0') ++ s

/-- Four-decimal-place rendering of a rational, models `f"{dist:.4f}"`
(truncation of the magnitude in place of binary-float rounding). -/
def format4 (q : Rat) : String :=
  let mag : Nat := q.num.natAbs * 10000 / q.den
  let body := toString (mag / 10000) ++ "." ++ padZeros4 (mag % 10000)
  if q.num < 0 then "-" ++ body else body

/-! ## Data model (`knowledge_base.py`) -/

/-- The value found under the `"hours"` key of a campus-data entry: either a
mapping from period label to time range (a Python dict, in key order), or
some non-mapping value (the code only checks `isinstance(..., dict)`). -/
inductive HoursVal
  | mapping (pairs : List (String × String))
  | nonMapping (raw : String)
deriving DecidableEq, Repr

/-- A campus-data entry (a Python dict).  A field that may be absent from
the dict is an `Option`; `additional_info` is read with
`entry.get("additional_info", [])` so it carries its default. -/
structure Entry where
  id : Option String
  name : Option String
  type : Option String
  location : Option String
  hours : Option HoursVal
  description : Option String
  contact : Option String
  additional_info : List String
deriving DecidableEq, Repr

/-- A record lacking a required field fails the formatter; the spec calls
this failure `MalformedRecordError` (in the code it is the `KeyError`
raised by the mandatory `entry[...]` accesses).  Carries the field name. -/
structure MalformedRecordError where
  field : String
deriving DecidableEq, Repr

/-- Look up a required dict key: absent keys raise. -/
def requireField (fld : String) : Option String → Except MalformedRecordError String
  | none => .error ⟨fld⟩
  | some v => .ok v

/-- The hours section body of a formatted document: each dict period becomes
a line `"  Label: time"` with the key underscore-to-space normalized and
title-cased; a missing, non-dict or empty hours value yields the
placeholder line. -/
def hoursText (h : Option HoursVal) : String :=
  let hoursLines :=
    match h with
    | some (.mapping pairs) =>
        pairs.map (fun p => "  " ++ pyTitle (replaceUnderscores p.1) ++ ": " ++ p.2)
    | _ => []
  if hoursLines.isEmpty then "  Not specified" else joinWith "\n" hoursLines

/-- The additional-info section body: one `"  - item"` bullet per note. -/
def additionalText (infos : List String) : String :=
  joinWith "\n" (infos.map (fun item => "  - " ++ item))

/-- Function `entry_to_document`: convert one campus entry into the text document
used for embedding.  Mirrors the f-string of `knowledge_base.py`; the
mandatory dict accesses for `name`, `type`, `location`, `description`,
`contact` fail on an absent key. -/
def entry_to_document (e : Entry) : Except MalformedRecordError String := do
  let name ← requireField "name" e.name
  let ty ← requireField "type" e.type
  let loc ← requireField "location" e.location
  let desc ← requireField "description" e.description
  let contact ← requireField "contact" e.contact
  .ok ("Name: " ++ name ++ "\n" ++
       "Type: " ++ ty ++ "\n" ++
       "Location: " ++ loc ++ "\n" ++
       "Hours:\n" ++ hoursText e.hours ++ "\n" ++
       "Description: " ++ desc ++ "\n" ++
       "Contact: " ++ contact ++ "\n" ++
       "Additional Info:\n" ++ additionalText e.additional_info)

/-- Metadata stored alongside each indexed document
(`{"name", "type", "location", "contact"}`). -/
structure SourceMeta where
  name : String
  type : String
  location : String
  contact : String
deriving DecidableEq, Repr

/-- One indexed entry of the ChromaDB collection: document text, id and
metadata (the embedding vector is implicit: distances are produced by the
oracle of the index capability at query time). -/
structure IndexEntry where
  docId : String
  document : String
  metadata : SourceMeta
deriving DecidableEq, Repr

/-- Build the `(document, id, metadata)` triple the populate loop of
`get_or_create_collection` produces for one entry; the metadata accesses
`entry["id"]`, `entry["name"]`, `entry["type"]`, `entry["location"]`,
`entry["contact"]` are mandatory. -/
def buildIndexEntry (e : Entry) : Except MalformedRecordError IndexEntry := do
  let doc ← entry_to_document e
  let id ← requireField "id" e.id
  let name ← requireField "name" e.name
  let ty ← requireField "type" e.type
  let loc ← requireField "location" e.location
  let contact ← requireField "contact" e.contact
  .ok { docId := id, document := doc,
        metadata := { name := name, type := ty, location := loc, contact := contact } }

/-- The populate loop of `get_or_create_collection` over the whole corpus,
in source order. -/
def buildEntries : List Entry → Except MalformedRecordError (List IndexEntry)
  | [] => .ok []
  | e :: rest =>
    match buildIndexEntry e with
    | .error err => .error err
    | .ok ie =>
      match buildEntries rest with
      | .error err => .error err
      | .ok others => .ok (ie :: others)

/-- Function `get_or_create_collection`: the persistent store state is
`Option (List IndexEntry)` (`none` when the named collection does not
exist).  Returns the new store state, the collection handed back to the
caller, and the number of documents for which the load/format/embed/insert
work was performed (`0` when the populated collection is returned
unchanged).  `reset` deletes the existing collection first, ignoring its
absence. -/
def get_or_create_collection (corpus : List Entry) (reset : Bool)
    (store : Option (List IndexEntry)) :
    Except MalformedRecordError (Option (List IndexEntry) × List IndexEntry × Nat) :=
  let store1 := if reset then none else store
  let col := store1.getD []
  if col.length = 0 then
    match buildEntries corpus with
    | .error err => .error err
    | .ok entries =>
        let col2 := col ++ entries
        .ok (some col2, col2, entries.length)
  else
    .ok (some col, col, 0)

/-! ## Index capability and `query_knowledge_base` -/

/-- A ChromaDB query result (the inner `[0]` lists of the nested result
dict): parallel lists of documents, metadata, distances and ids,
best match first. -/
structure QueryResults where
  documents : List String
  metadatas : List SourceMeta
  distances : List Rat
  ids : List String
deriving DecidableEq, Repr

/-- Distance-ordering relation on index entries induced by a distance
oracle `d : query text → document text → distance`. -/
def distLE (d : String → String → Rat) (q : String) (a b : IndexEntry) : Prop :=
  d q a.document ≤ d q b.document

instance (d : String → String → Rat) (q : String) : DecidableRel (distLE d q) :=
  fun a b => inferInstanceAs (Decidable (d q a.document ≤ d q b.document))

instance (d : String → String → Rat) (q : String) : IsTotal IndexEntry (distLE d q) :=
  ⟨fun a b => le_total (d q a.document) (d q b.document)⟩

instance (d : String → String → Rat) (q : String) : IsTrans IndexEntry (distLE d q) :=
  ⟨fun _ _ _ hab hbc => le_trans hab hbc⟩

/-- Model of the vector-index query capability (`collection.query`),
following the interface contract of the spec: the `min k size` entries of
minimum distance to the query, ascending by distance, ties kept in
insertion order (stable sort). -/
def chromaQuery (d : String → String → Rat) (col : List IndexEntry)
    (q : String) (k : Nat) : QueryResults :=
  let top := (col.insertionSort (distLE d q)).take k
  { documents := top.map (·.document),
    metadatas := top.map (·.metadata),
    distances := top.map (fun e => d q e.document),
    ids := top.map (·.docId) }

/-- Function `query_knowledge_base`: delegate the query to the index capability with
`n_results = top_k`. -/
def query_knowledge_base (d : String → String → Rat) (collection : List IndexEntry)
    (query : String) (top_k : Nat) : QueryResults :=
  chromaQuery d collection query top_k

/-! ## RAG pipeline (`rag_pipeline.py`) -/

/-- Container `RAGResult`: answer text, source attributions, raw retrieved documents
and distances. -/
structure RAGResult where
  answer : String
  sources : List (String × String × String)
  retrieved_docs : List String
  distances : List Rat
deriving DecidableEq, Repr

/-- Outcome of one call to the generation capability
(`client.messages.create`): generated text, or one of the exception kinds
the pipeline classifies, or some other raised exception. -/
inductive GenOutcome
  | ok (text : String)
  | authError
  | rateLimitError
  | apiError (detail : String)
  | unclassified (detail : String)
deriving DecidableEq, Repr

/-- An error that escapes `generate_answer`: an unclassified generation
failure (the spec names it `GenerationError`). -/
inductive PipelineError
  | generationError (detail : String)
deriving DecidableEq, Repr

/-- Fixed no-evidence answer text of the retrieval short-circuit. -/
def noInfoMsg : String :=
  "I couldn\x27t find any relevant information in the campus " ++
  "knowledge base. Please try rephrasing your question or " ++
  "contact Student Services for help."

/-- Fixed missing-credential answer text. -/
def missingKeyMsg : String :=
  "ERROR: ANTHROPIC_API_KEY is not set. " ++
  "Please add it to your .env file.\n" ++
  "See .env.example for the expected format."

/-- Fixed authentication-failure answer text. -/
def authErrorMsg : String :=
  "ERROR: Invalid Anthropic API key. Please check your .env file."

/-- Fixed rate-limit answer text. -/
def rateLimitMsg : String :=
  "ERROR: Rate limit exceeded. Please wait a moment and try again."

/-- Head of the generic API-failure answer text; the raised error detail is
appended (`f"ERROR: Anthropic API error — {e}"`). -/
def apiErrorHead : String :=
  "ERROR: Anthropic API error — "

/-- The generic API-failure answer text for error detail `e`. -/
def apiErrorMsg (e : String) : String :=
  apiErrorHead ++ e

/-- Python truthiness of `config.ANTHROPIC_API_KEY`: an unset variable is
`None` and an empty string is falsy. -/
def keyPresent : Option String → Bool
  | none => false
  | some s => !s.isEmpty

/-- One rendered context block of `build_context_block`, without its
trailing newline: 1-based rank header with the distance at four decimal
places, then the document text. -/
def sourceBlock (rank : Nat) (doc : String) (dist : Rat) : String :=
  "--- Source " ++ toString rank ++ " (similarity distance: " ++
    format4 dist ++ ") ---\n" ++ doc

/-- The list comprehension of `build_context_block`: blocks over
`zip(docs, metadatas, distances)` with `enumerate(..., 1)`; each f-string
block ends with a newline. -/
def contextBlocks : Nat → List (String × SourceMeta × Rat) → List String
  | _, [] => []
  | i, (doc, _meta, dist) :: rest =>
      (sourceBlock i doc dist ++ "\n") :: contextBlocks (i + 1) rest

/-- Function `build_context_block`: format the retrieved documents into the evidence
block of the prompt (`"\n".join(blocks)`); zero documents yield the empty
string. -/
def build_context_block (results : QueryResults) : String :=
  joinWith "\n"
    (contextBlocks 1 (results.documents.zip (results.metadatas.zip results.distances)))

/-- The source-attribution list built at the end of `generate_answer`:
`{"id", "name", "type"}` per retrieved entry, in retrieval order. -/
def buildSources (ids : List String) (metadatas : List SourceMeta) :
    List (String × String × String) :=
  (ids.zip metadatas).map (fun p => (p.1, p.2.name, p.2.type))

/-- Function `generate_answer`: the full pipeline entry point.  `gen` is the outcome
the generation capability would produce if invoked, `apiKey` is
`config.ANTHROPIC_API_KEY`, `d` the distance oracle of the index
capability.  Returns the `RAGResult` paired with a flag recording whether
the generation capability was invoked (client constructed and the request
sent); an unclassified generation failure propagates. -/
def generate_answer (gen : GenOutcome) (apiKey : Option String)
    (d : String → String → Rat) (question : String)
    (collection : List IndexEntry) (top_k : Nat) :
    Except PipelineError (RAGResult × Bool) :=
  let results := query_knowledge_base d collection question top_k
  let docs := results.documents
  let metadatas := results.metadatas
  let distances := results.distances
  let ids := results.ids
  if docs = [] then
    .ok ({ answer := noInfoMsg, sources := [],
           retrieved_docs := [], distances := [] }, false)
  else if !keyPresent apiKey then
    .ok ({ answer := missingKeyMsg, sources := [],
           retrieved_docs := docs, distances := distances }, false)
  else
    match gen with
    | .ok t =>
        .ok ({ answer := t, sources := buildSources ids metadatas,
               retrieved_docs := docs, distances := distances }, true)
    | .authError =>
        .ok ({ answer := authErrorMsg, sources := buildSources ids metadatas,
               retrieved_docs := docs, distances := distances }, true)
    | .rateLimitError =>
        .ok ({ answer := rateLimitMsg, sources := buildSources ids metadatas,
               retrieved_docs := docs, distances := distances }, true)
    | .apiError e =>
        .ok ({ answer := apiErrorMsg e, sources := buildSources ids metadatas,
               retrieved_docs := docs, distances := distances }, true)
    | .unclassified e => .error (.generationError e)

/-! ## Specification-side definitions (refinement targets) -/

/-- Written from the words of the spec (§4.5): each retrieved document
becomes a numbered block carrying its 1-based rank and its similarity
distance at four decimal places, in retrieval order. -/
def specContextBlocks : Nat → List (String × Rat) → List String
  | _, [] => []
  | i, (doc, dist) :: rest => sourceBlock i doc dist :: specContextBlocks (i + 1) rest

/-- Written from the words of the spec (§4.5): the context assembler yields
the EMPTY sentinel (the empty evidence block) on zero documents, else the
numbered blocks joined with blank-line separation. -/
def assembleSpec (pairs : List (String × Rat)) : String :=
  if pairs.isEmpty then "" else joinWith "\n\n" (specContextBlocks 1 pairs) ++ "\n"

/-! ## Helper lemmas -/

/-- Rendering of `entry_to_document` on an entry holding every required
field. -/
lemma entry_to_document_ok (e : Entry) (n t l dsc c : String)
    (hn : e.name = some n) (ht : e.type = some t) (hl : e.location = some l)
    (hd : e.description = some dsc) (hc : e.contact = some c) :
    entry_to_document e =
      .ok ("Name: " ++ n ++ "\n" ++
           "Type: " ++ t ++ "\n" ++
           "Location: " ++ l ++ "\n" ++
           "Hours:\n" ++ hoursText e.hours ++ "\n" ++
           "Description: " ++ dsc ++ "\n" ++
           "Contact: " ++ c ++ "\n" ++
           "Additional Info:\n" ++ additionalText e.additional_info) := by
  simp only [entry_to_document, requireField, hn, ht, hl, hd, hc]
  rfl

/-- Formatting succeeds exactly when every required field is
present. -/
lemma entry_to_document_isOk (e : Entry) :
    (entry_to_document e).isOk =
      (e.name.isSome && e.type.isSome && e.location.isSome &&
       e.description.isSome && e.contact.isSome) := by
  obtain ⟨id, nm, ty, loc, hrs, dsc, ct, ai⟩ := e
  cases nm <;> cases ty <;> cases loc <;> cases dsc <;> cases ct <;> rfl

/-- A computation that is not `isOk` is an error. -/
lemma exists_error_of_isOk_false {ε α : Type} {x : Except ε α}
    (h : x.isOk = false) : ∃ err, x = .error err := by
  cases x with
  | error err => exact ⟨err, rfl⟩
  | ok a => simp [Except.isOk, Except.toBool] at h

/-! ## Claims about the document formatter -/

/-- C6: a record missing at least one required field (`name`, `type`,
`location`, `description` or `contact`) makes `entry_to_document` fail
with `MalformedRecordError`. -/
theorem entry_to_document_missing_required_fails (e : Entry)
    (h : e.name = none ∨ e.type = none ∨ e.location = none ∨
         e.description = none ∨ e.contact = none) :
    ∃ err, entry_to_document e = .error err := by
  apply exists_error_of_isOk_false
  rw [entry_to_document_isOk]
  rcases h with h | h | h | h | h <;> simp [h]

/-- Entry used to witness C6: the required `name` field is absent. -/
def missingNameEntry : Entry :=
  { id := some "x1", name := none, type := some "facility",
    location := some "North", hours := none,
    description := some "Desc", contact := some "c@x", additional_info := [] }

/-- Witness for C6 at a concrete record missing `name`. -/
theorem entry_to_document_missing_required_fails_witness :
    missingNameEntry.name = none ∧
    ∃ err, entry_to_document missingNameEntry = .error err :=
  ⟨rfl, entry_to_document_missing_required_fails missingNameEntry (Or.inl rfl)⟩

/-- C7: on a record holding every required field, `entry_to_document` is
deterministic and renders, in fixed order, name, type, location, the hours
section, description, contact and the additional-info section; a non-empty
hours mapping renders one `"Label: range"` line per period with the key
underscore-to-space normalized and title-cased, and an absent or empty
hours mapping renders the single placeholder line. -/
theorem entry_to_document_valid_renders (e : Entry) (n t l dsc c : String)
    (hn : e.name = some n) (ht : e.type = some t) (hl : e.location = some l)
    (hd : e.description = some dsc) (hc : e.contact = some c) :
    entry_to_document e =
      .ok ("Name: " ++ n ++ "\n" ++
           "Type: " ++ t ++ "\n" ++
           "Location: " ++ l ++ "\n" ++
           "Hours:\n" ++ hoursText e.hours ++ "\n" ++
           "Description: " ++ dsc ++ "\n" ++
           "Contact: " ++ c ++ "\n" ++
           "Additional Info:\n" ++ additionalText e.additional_info) ∧
    (∀ e2 : Entry, e2 = e → entry_to_document e2 = entry_to_document e) ∧
    (∀ pairs : List (String × String), pairs ≠ [] →
       hoursText (some (.mapping pairs)) =
         joinWith "\n"
           (pairs.map (fun p => "  " ++ pyTitle (replaceUnderscores p.1) ++ ": " ++ p.2))) ∧
    hoursText none = "  Not specified" ∧
    hoursText (some (.mapping [])) = "  Not specified" := by
  refine ⟨entry_to_document_ok e n t l dsc c hn ht hl hd hc, ?_, ?_, rfl, rfl⟩
  · intro e2 h2
    rw [h2]
  · intro pairs hp
    cases pairs with
    | nil => exact absurd rfl hp
    | cons a rest => simp [hoursText]

/-- Entry used to witness C7: all fields present, two hours periods, one of
them with an underscore in its key. -/
def libEntry : Entry :=
  { id := some "lib01", name := some "Main Library", type := some "facility",
    location := some "Central Campus",
    hours := some (.mapping [("weekdays", "8am-10pm"), ("open_hours", "9-5")]),
    description := some "The main library.", contact := some "lib@campus.edu",
    additional_info := ["Quiet floors"] }

/-- Witness for C7 at a concrete valid record: the rendered document is the
fixed-order text with normalized hours labels. -/
theorem entry_to_document_valid_renders_witness :
    libEntry.name = some "Main Library" ∧
    entry_to_document libEntry =
      .ok ("Name: Main Library\nType: facility\nLocation: Central Campus\n" ++
           "Hours:\n  Weekdays: 8am-10pm\n  Open Hours: 9-5\n" ++
           "Description: The main library.\nContact: lib@campus.edu\n" ++
           "Additional Info:\n  - Quiet floors") :=
  ⟨rfl, (entry_to_document_valid_renders libEntry "Main Library" "facility"
      "Central Campus" "The main library." "lib@campus.edu"
      rfl rfl rfl rfl rfl).1⟩

/-- C10: a record whose hours value is present but not a mapping does not
make `entry_to_document` fail: the value is ignored and the document equals
the one rendered with hours absent, hours section included
(`"  Not specified"`). -/
theorem entry_to_document_non_mapping_hours (e : Entry) (raw : String)
    (h : e.hours = some (.nonMapping raw)) :
    entry_to_document e = entry_to_document { e with hours := none } ∧
    hoursText e.hours = "  Not specified" ∧
    (∀ n t l dsc c : String,
       e.name = some n → e.type = some t → e.location = some l →
       e.description = some dsc → e.contact = some c →
       ∃ doc, entry_to_document e = .ok doc) := by
  refine ⟨?_, by rw [h]; rfl, ?_⟩
  · simp only [entry_to_document, h]
    rfl
  · intro n t l dsc c hn ht hl hd hc
    exact ⟨_, entry_to_document_ok e n t l dsc c hn ht hl hd hc⟩

/-- Entry used to witness C10: hours is the plain string `"varies"`. -/
def stringHoursEntry : Entry :=
  { id := some "gym01", name := some "Campus Gym", type := some "facility",
    location := some "West", hours := some (.nonMapping "varies"),
    description := some "Gym.", contact := some "gym@campus.edu",
    additional_info := [] }

/-- Witness for C10 at a concrete record whose hours value is a plain
string. -/
theorem entry_to_document_non_mapping_hours_witness :
    stringHoursEntry.hours = some (.nonMapping "varies") ∧
    entry_to_document stringHoursEntry =
      entry_to_document { stringHoursEntry with hours := none } ∧
    hoursText stringHoursEntry.hours = "  Not specified" := by
  have h := entry_to_document_non_mapping_hours stringHoursEntry "varies" rfl
  exact ⟨rfl, h.1, h.2.1⟩

/-! ## Claims about the index builder -/

/-- Building entries keeps one index entry per corpus entry. -/
lemma buildEntries_length : ∀ (corpus : List Entry) (es : List IndexEntry),
    buildEntries corpus = .ok es → es.length = corpus.length := by
  intro corpus
  induction corpus with
  | nil =>
      intro es h
      simp only [buildEntries] at h
      cases h
      rfl
  | cons e rest ih =>
      intro es h
      simp only [buildEntries] at h
      cases hie : buildIndexEntry e with
      | error err => rw [hie] at h; cases h
      | ok ie =>
          rw [hie] at h
          cases hr : buildEntries rest with
          | error err => rw [hr] at h; cases h
          | ok others =>
              rw [hr] at h
              cases h
              simp [ih others hr]

/-- C3: on a corpus with unique ids, `get_or_create_collection` is
idempotent: a populated collection is returned unchanged with none of the
load/format/embed/insert work performed, and two calls in sequence from an
unpopulated store embed each document exactly once, the second call
observing the same collection (hence the same entry count) as the
first. -/
theorem get_or_create_collection_idempotent (corpus : List Entry)
    (es : List IndexEntry)
    (huniq : (corpus.map Entry.id).Nodup)
    (hbuild : buildEntries corpus = .ok es) :
    (∀ col : List IndexEntry, col ≠ [] →
        get_or_create_collection corpus false (some col) = .ok (some col, col, 0)) ∧
    (∀ store0 : Option (List IndexEntry), store0.getD [] = [] →
        get_or_create_collection corpus false store0 =
          .ok (some es, es, corpus.length) ∧
        get_or_create_collection corpus false (some es) = .ok (some es, es, 0) ∧
        es.length = corpus.length) := by
  have hlen : es.length = corpus.length := buildEntries_length corpus es hbuild
  constructor
  · intro col hcol
    have : col.length ≠ 0 := by
      simpa [List.length_eq_zero] using hcol
    simp [get_or_create_collection, this]
  · intro store0 h0
    refine ⟨?_, ?_, hlen⟩
    · simp [get_or_create_collection, h0, hbuild, hlen]
    · cases hes : es with
      | nil => simp [get_or_create_collection, hbuild, hes]
      | cons a rest => simp [get_or_create_collection, hes]

/-- The one-record corpus used to witness C3. -/
def wCorpus : List Entry := [libEntry]

/-- The index entries built from `wCorpus`. -/
def wEntries : List IndexEntry := (buildEntries wCorpus).toOption.getD []

/-- Witness for C3: two sequential calls from an empty store on a concrete
one-record corpus; the second returns the same collection with zero
embed/insert work. -/
theorem get_or_create_collection_idempotent_witness :
    get_or_create_collection wCorpus false none = .ok (some wEntries, wEntries, 1) ∧
    get_or_create_collection wCorpus false (some wEntries) =
      .ok (some wEntries, wEntries, 0) := by
  have h := get_or_create_collection_idempotent wCorpus wEntries (by decide) rfl
  have h2 := h.2 none rfl
  exact ⟨h2.1, h2.2.1⟩

/-! ## Claims about the retriever -/

/-- C4: for every index and every `k > 0`, `query_knowledge_base` returns
exactly `min k size` entries ordered by non-decreasing similarity
distance; for `k` larger than the index this is all entries still sorted,
and the empty index yields the empty result rather than an error. -/
theorem query_knowledge_base_topk (d : String → String → Rat)
    (col : List IndexEntry) (q : String) (k : Nat) (hk : 0 < k) :
    (query_knowledge_base d col q k).documents.length = min k col.length ∧
    (query_knowledge_base d col q k).metadatas.length = min k col.length ∧
    (query_knowledge_base d col q k).distances.length = min k col.length ∧
    (query_knowledge_base d col q k).ids.length = min k col.length ∧
    List.Sorted (· ≤ ·) (query_knowledge_base d col q k).distances ∧
    (col = [] → query_knowledge_base d col q k = ⟨[], [], [], []⟩) := by
  have hlen : ((col.insertionSort (distLE d q)).take k).length = min k col.length := by
    simp [List.length_take]
  refine ⟨?_, ?_, ?_, ?_, ?_, ?_⟩
  · simpa [query_knowledge_base, chromaQuery] using hlen
  · simpa [query_knowledge_base, chromaQuery] using hlen
  · simpa [query_knowledge_base, chromaQuery] using hlen
  · simpa [query_knowledge_base, chromaQuery] using hlen
  · have hs : List.Sorted (distLE d q) (col.insertionSort (distLE d q)) :=
      List.sorted_insertionSort (distLE d q) col
    have ht : List.Sorted (distLE d q) ((col.insertionSort (distLE d q)).take k) :=
      List.Pairwise.sublist (List.take_sublist k _) hs
    exact List.Pairwise.map _ (fun a b hab => hab) ht
  · intro hcol
    subst hcol
    simp [query_knowledge_base, chromaQuery, List.insertionSort]

/-- Distance oracle used by the concrete witnesses: the length of the
document text. -/
def wD : String → String → Rat := fun _ doc => mkRat doc.length 1

/-- Two-entry collection used by the concrete witnesses. -/
def wCol2 : List IndexEntry :=
  [{ docId := "a1", document := "Alpha document text",
     metadata := { name := "Alpha", type := "lab", location := "L1", contact := "c1" } },
   { docId := "b2", document := "B",
     metadata := { name := "Beta", type := "office", location := "L2", contact := "c2" } }]

/-- Witness for C4: querying the two-entry collection with `k = 3` returns
both entries sorted by distance. -/
theorem query_knowledge_base_topk_witness :
    0 < 3 ∧
    (query_knowledge_base wD wCol2 "q" 3).documents.length = min 3 wCol2.length ∧
    List.Sorted (· ≤ ·) (query_knowledge_base wD wCol2 "q" 3).distances := by
  have h := query_knowledge_base_topk wD wCol2 "q" 3 (by decide)
  exact ⟨by decide, h.1, h.2.2.2.2.1⟩

/-! ## Claims about the context assembler -/

/-- Joining a list with a non-empty tail peels its head. -/
lemma joinWith_cons (sep x : String) (l : List String) (h : l ≠ []) :
    joinWith sep (x :: l) = x ++ sep ++ joinWith sep l := by
  cases l with
  | nil => exact absurd rfl h
  | cons y rest => rfl

/-- Projecting the document and distance out of the triple zip of
`build_context_block` recovers the document-distance zip, whenever the
metadata list is at least as long as the document list. -/
lemma zipProjDocDist : ∀ (l1 : List String) (l2 : List SourceMeta) (l3 : List Rat),
    l1.length ≤ l2.length →
    (l1.zip (l2.zip l3)).map (fun x => (x.1, x.2.2)) = l1.zip l3 := by
  intro l1
  induction l1 with
  | nil => intro l2 l3 _; rfl
  | cons a r1 ih =>
      intro l2 l3 h
      cases l2 with
      | nil => simp at h
      | cons b r2 =>
          cases l3 with
          | nil => rfl
          | cons c r3 =>
              simp only [List.zip_cons_cons, List.map_cons]
              rw [ih r2 r3 (Nat.le_of_succ_le_succ (by simpa using h))]

/-- The newline join of the trailing-newline blocks of
`build_context_block` equals the blank-line join of the same blocks
without their trailing newline, followed by one final newline. -/
lemma joinWith_contextBlocks : ∀ (i : Nat) (l : List (String × SourceMeta × Rat)),
    l ≠ [] →
    joinWith "\n" (contextBlocks i l) =
      joinWith "\n\n" (specContextBlocks i (l.map (fun x => (x.1, x.2.2)))) ++ "\n" := by
  intro i l
  induction l generalizing i with
  | nil => intro h; exact absurd rfl h
  | cons x rest ih =>
      intro _
      obtain ⟨doc, meta, dist⟩ := x
      cases rest with
      | nil => rfl
      | cons y rest2 =>
          obtain ⟨d2, m2, q2⟩ := y
          have hcb : contextBlocks (i + 1) ((d2, m2, q2) :: rest2) ≠ [] := by
            simp [contextBlocks]
          have hsb : specContextBlocks (i + 1)
              (((d2, m2, q2) :: rest2).map (fun x => (x.1, x.2.2))) ≠ [] := by
            simp [specContextBlocks]
          rw [show contextBlocks i ((doc, meta, dist) :: (d2, m2, q2) :: rest2) =
                (sourceBlock i doc dist ++ "\n") ::
                  contextBlocks (i + 1) ((d2, m2, q2) :: rest2) from rfl,
              show specContextBlocks i
                  (((doc, meta, dist) :: (d2, m2, q2) :: rest2).map
                    (fun x => (x.1, x.2.2))) =
                sourceBlock i doc dist ::
                  specContextBlocks (i + 1)
                    (((d2, m2, q2) :: rest2).map (fun x => (x.1, x.2.2))) from rfl,
              joinWith_cons _ _ _ hcb, joinWith_cons _ _ _ hsb,
              ih (i + 1) (by simp)]
          simp only [String.append_assoc]
          rw [show ("\n\n" : String) = "\n" ++ "\n" from rfl]
          simp only [String.append_assoc]

/-- C8: `build_context_block` yields the empty evidence block (the EMPTY
sentinel) on a retrieval result with zero documents; on any aligned result
it refines the spec-side assembler: one numbered block per retrieved
document carrying its 1-based rank and its distance at four decimal
places, in retrieval order, joined with blank-line separation. -/
theorem build_context_block_assembles (results : QueryResults) :
    (results.documents = [] → build_context_block results = "") ∧
    (results.documents.length ≤ results.metadatas.length →
       build_context_block results =
         assembleSpec (results.documents.zip results.distances)) := by
  constructor
  · intro h
    simp [build_context_block, h, contextBlocks, joinWith]
  · intro hle
    by_cases hz : results.documents.zip results.distances = []
    · have h3 : results.documents.zip (results.metadatas.zip results.distances) = [] := by
        have := zipProjDocDist results.documents results.metadatas results.distances hle
        rw [hz] at this
        exact List.map_eq_nil.mp this
      simp [build_context_block, assembleSpec, h3, hz, contextBlocks, joinWith]
    · have h3 : results.documents.zip (results.metadatas.zip results.distances) ≠ [] := by
        intro h3
        apply hz
        rw [← zipProjDocDist results.documents results.metadatas results.distances hle, h3]
        rfl
      rw [build_context_block, joinWith_contextBlocks 1 _ h3,
        zipProjDocDist results.documents results.metadatas results.distances hle,
        assembleSpec, if_neg (by simpa using hz)]

/-- The query results used to witness C8. -/
def wQR : QueryResults :=
  { documents := ["Doc one.", "Doc two."],
    metadatas := [{ name := "One", type := "lab", location := "L1", contact := "c1" },
                  { name := "Two", type := "office", location := "L2", contact := "c2" }],
    distances := [mkRat 1 4, mkRat 3 2],
    ids := ["one", "two"] }

/-- Witness for C8 at a concrete two-document result: the rendered evidence
block is the two rank-numbered blocks with four-decimal distances joined by
a blank line. -/
theorem build_context_block_assembles_witness :
    wQR.documents.length ≤ wQR.metadatas.length ∧
    build_context_block wQR = assembleSpec (wQR.documents.zip wQR.distances) ∧
    build_context_block wQR =
      "--- Source 1 (similarity distance: 0.2500) ---\nDoc one.\n" ++
      "\n" ++
      "--- Source 2 (similarity distance: 1.5000) ---\nDoc two.\n" :=
  ⟨by decide, (build_context_block_assembles wQR).2 (by decide), by decide⟩

/-! ## Claims about the pipeline orchestrator and answer generator -/

/-- C1: when the retrieval step returns zero documents, the pipeline entry
point short-circuits: the fixed rephrase-or-seek-help answer, empty
sources, empty retrieved documents and distances, and the generation
capability is never invoked. -/
theorem generate_answer_no_docs (gen : GenOutcome) (apiKey : Option String)
    (d : String → String → Rat) (question : String)
    (collection : List IndexEntry) (top_k : Nat)
    (h : (query_knowledge_base d collection question top_k).documents = []) :
    generate_answer gen apiKey d question collection top_k =
      .ok ({ answer := noInfoMsg, sources := [],
             retrieved_docs := [], distances := [] }, false) := by
  simp [generate_answer, h]

/-- Witness for C1: the empty index yields zero retrieval matches, and the
pipeline returns the fixed no-evidence answer without invoking
generation. -/
theorem generate_answer_no_docs_witness :
    (query_knowledge_base wD [] "where is the gym" 3).documents = [] ∧
    generate_answer (.ok "unused") (some "sk-key") wD "where is the gym" [] 3 =
      .ok ({ answer := noInfoMsg, sources := [],
             retrieved_docs := [], distances := [] }, false) :=
  ⟨by decide, generate_answer_no_docs _ _ _ _ _ _ (by decide)⟩

/-- C2: with at least one retrieval match but an absent (or empty, hence
falsy) generation credential, the pipeline returns the fixed
missing-credential answer with empty sources, and the generation client is
never constructed nor contacted. -/
theorem generate_answer_missing_key (gen : GenOutcome) (apiKey : Option String)
    (d : String → String → Rat) (question : String)
    (collection : List IndexEntry) (top_k : Nat)
    (hdocs : (query_knowledge_base d collection question top_k).documents ≠ [])
    (hkey : keyPresent apiKey = false) :
    generate_answer gen apiKey d question collection top_k =
      .ok ({ answer := missingKeyMsg, sources := [],
             retrieved_docs := (query_knowledge_base d collection question top_k).documents,
             distances := (query_knowledge_base d collection question top_k).distances },
           false) := by
  simp [generate_answer, hdocs, hkey]

/-- Witness for C2: a two-entry index, a query with matches and no API key:
the missing-credential answer comes back with empty sources and the
generation capability not invoked. -/
theorem generate_answer_missing_key_witness :
    (query_knowledge_base wD wCol2 "hours" 3).documents ≠ [] ∧
    keyPresent none = false ∧
    generate_answer (.ok "unused") none wD "hours" wCol2 3 =
      .ok ({ answer := missingKeyMsg, sources := [],
             retrieved_docs := (query_knowledge_base wD wCol2 "hours" 3).documents,
             distances := (query_knowledge_base wD wCol2 "hours" 3).distances },
           false) :=
  ⟨by decide, rfl, generate_answer_missing_key _ _ _ _ _ _ (by decide) rfl⟩

/-- The attribution list built by `generate_answer` has one element per
retrieved document. -/
lemma buildSources_length (d : String → String → Rat)
    (col : List IndexEntry) (q : String) (k : Nat) :
    (buildSources (query_knowledge_base d col q k).ids
      (query_knowledge_base d col q k).metadatas).length =
      (query_knowledge_base d col q k).documents.length := by
  simp [buildSources, query_knowledge_base, chromaQuery]

/-- The result `generate_answer` builds after an attempted generation:
the answer text paired with the attribution list, retrieved documents and
distances of the query. -/
def genResult (answer : String) (d : String → String → Rat) (question : String)
    (collection : List IndexEntry) (top_k : Nat) : RAGResult :=
  { answer := answer,
    sources := buildSources (query_knowledge_base d collection question top_k).ids
      (query_knowledge_base d collection question top_k).metadatas,
    retrieved_docs := (query_knowledge_base d collection question top_k).documents,
    distances := (query_knowledge_base d collection question top_k).distances }

/-- C9: whenever retrieval finds `n ≥ 1` documents and the generation call
is attempted, the returned result — generated text or any of the three
classified failures — carries exactly `n` source attributions
`(id, name, type)` built from the retrieved ids and metadata in retrieval
order, plus the raw retrieved documents and distances in retrieval order;
the classified-failure branches do not empty the attribution list. -/
theorem generate_answer_keeps_sources (gen : GenOutcome) (apiKey : Option String)
    (d : String → String → Rat) (question : String)
    (collection : List IndexEntry) (top_k : Nat)
    (hdocs : (query_knowledge_base d collection question top_k).documents ≠ [])
    (hkey : keyPresent apiKey = true)
    (hgen : ∀ e, gen ≠ GenOutcome.unclassified e) :
    ∃ res : RAGResult,
      generate_answer gen apiKey d question collection top_k = .ok (res, true) ∧
      res.sources = buildSources (query_knowledge_base d collection question top_k).ids
        (query_knowledge_base d collection question top_k).metadatas ∧
      res.sources.length =
        (query_knowledge_base d collection question top_k).documents.length ∧
      res.retrieved_docs = (query_knowledge_base d collection question top_k).documents ∧
      res.distances = (query_knowledge_base d collection question top_k).distances := by
  cases gen with
  | unclassified e => exact absurd rfl (hgen e)
  | ok t =>
      refine ⟨genResult t d question collection top_k, ?_, rfl,
        buildSources_length d collection question top_k, rfl, rfl⟩
      simp [generate_answer, genResult, hdocs, hkey]
  | authError =>
      refine ⟨genResult authErrorMsg d question collection top_k, ?_, rfl,
        buildSources_length d collection question top_k, rfl, rfl⟩
      simp [generate_answer, genResult, hdocs, hkey]
  | rateLimitError =>
      refine ⟨genResult rateLimitMsg d question collection top_k, ?_, rfl,
        buildSources_length d collection question top_k, rfl, rfl⟩
      simp [generate_answer, genResult, hdocs, hkey]
  | apiError e =>
      refine ⟨genResult (apiErrorMsg e) d question collection top_k, ?_, rfl,
        buildSources_length d collection question top_k, rfl, rfl⟩
      simp [generate_answer, genResult, hdocs, hkey]

/-- Witness for C9: a successful generation on the two-entry index keeps
both source attributions. -/
theorem generate_answer_keeps_sources_witness :
    (query_knowledge_base wD wCol2 "labs" 3).documents ≠ [] ∧
    keyPresent (some "sk-key") = true ∧
    (∃ res : RAGResult,
      generate_answer (.ok "Generated answer.") (some "sk-key") wD "labs" wCol2 3 =
        .ok (res, true) ∧
      res.sources = buildSources (query_knowledge_base wD wCol2 "labs" 3).ids
        (query_knowledge_base wD wCol2 "labs" 3).metadatas ∧
      res.sources.length = (query_knowledge_base wD wCol2 "labs" 3).documents.length ∧
      res.retrieved_docs = (query_knowledge_base wD wCol2 "labs" 3).documents ∧
      res.distances = (query_knowledge_base wD wCol2 "labs" 3).distances) :=
  ⟨by decide, rfl,
    generate_answer_keeps_sources _ _ _ _ _ _ (by decide) rfl (fun e h => nomatch h)⟩

/-- A string with the fixed head `pre` differs from `t` whenever `pre` and
`t` already differ at a character position inside `pre`. -/
lemma append_ne_of_nth_ne (pre e t : String) (i : Nat)
    (hi : i < pre.data.length) (hne : pre.data[i]? ≠ t.data[i]?) :
    pre ++ e ≠ t := by
  intro hEq
  apply hne
  have hd : pre.data ++ e.data = t.data := by
    rw [← String.data_append, hEq]
  rw [← hd]
  exact (List.getElem?_append_left hi).symm

/-- Counterexample to C5 as frozen: the generic-service failure is not
mapped to a fixed answer text — two runs identical except for the API
error detail produce different answer texts. -/
theorem generate_answer_api_text_not_fixed :
    ∃ r1 r2 : RAGResult,
      generate_answer (.apiError "connection reset") (some "sk-key") wD "food" wCol2 3 =
        .ok (r1, true) ∧
      generate_answer (.apiError "overloaded") (some "sk-key") wD "food" wCol2 3 =
        .ok (r2, true) ∧
      r1.answer ≠ r2.answer := by
  exact ⟨genResult (apiErrorMsg "connection reset") wD "food" wCol2 3,
    genResult (apiErrorMsg "overloaded") wD "food" wCol2 3,
    rfl, rfl, by decide⟩

/-- C5 (amended): with retrieval matches and a present credential, a
failing generation call is classified into exactly three handled kinds —
authentication, rate-limit and generic service failure — the first two
mapped to distinct fixed answer texts and the third to a distinct answer
text made of a fixed head followed by the error detail, so the caller
still receives a well-formed result; any other failure propagates as
`GenerationError`. -/
theorem generate_answer_classifies_failures (apiKey : Option String)
    (d : String → String → Rat) (question : String)
    (collection : List IndexEntry) (top_k : Nat)
    (hdocs : (query_knowledge_base d collection question top_k).documents ≠ [])
    (hkey : keyPresent apiKey = true) :
    (∃ res : RAGResult,
       generate_answer .authError apiKey d question collection top_k =
         .ok (res, true) ∧ res.answer = authErrorMsg) ∧
    (∃ res : RAGResult,
       generate_answer .rateLimitError apiKey d question collection top_k =
         .ok (res, true) ∧ res.answer = rateLimitMsg) ∧
    (∀ e, ∃ res : RAGResult,
       generate_answer (.apiError e) apiKey d question collection top_k =
         .ok (res, true) ∧ res.answer = apiErrorMsg e) ∧
    (∀ e, authErrorMsg ≠ rateLimitMsg ∧ apiErrorMsg e ≠ authErrorMsg ∧
       apiErrorMsg e ≠ rateLimitMsg) ∧
    (∀ e, generate_answer (.unclassified e) apiKey d question collection top_k =
       .error (.generationError e)) := by
  refine ⟨⟨genResult authErrorMsg d question collection top_k, ?_, rfl⟩,
    ⟨genResult rateLimitMsg d question collection top_k, ?_, rfl⟩,
    fun e => ⟨genResult (apiErrorMsg e) d question collection top_k, ?_, rfl⟩,
    fun e => ⟨?_, ?_, ?_⟩, fun e => ?_⟩
  · simp [generate_answer, genResult, hdocs, hkey]
  · simp [generate_answer, genResult, hdocs, hkey]
  · simp [generate_answer, genResult, hdocs, hkey]
  · decide
  · exact append_ne_of_nth_ne apiErrorHead e authErrorMsg 7 (by decide) (by decide)
  · exact append_ne_of_nth_ne apiErrorHead e rateLimitMsg 7 (by decide) (by decide)
  · simp [generate_answer, hdocs, hkey]

/-- Witness for C5 (amended) on the two-entry index with a present key:
the authentication failure maps to its fixed text and an unclassified
failure propagates. -/
theorem generate_answer_classifies_failures_witness :
    (query_knowledge_base wD wCol2 "food" 3).documents ≠ [] ∧
    keyPresent (some "sk-key") = true ∧
    (∃ res : RAGResult,
       generate_answer .authError (some "sk-key") wD "food" wCol2 3 =
         .ok (res, true) ∧ res.answer = authErrorMsg) ∧
    (∀ e, generate_answer (.unclassified e) (some "sk-key") wD "food" wCol2 3 =
       .error (.generationError e)) := by
  have h := generate_answer_classifies_failures (some "sk-key") wD "food" wCol2 3
    (by decide) rfl
  exact ⟨by decide, rfl, h.1, h.2.2.2.2⟩
